import Mathlib

/-!
Verification development for the DCF valuation engine
(src/dcf_generator: forecast.py, wacc.py, valuation.py, pipeline.py, config.py).

The Python code computes with IEEE doubles; the embedding uses exact
rationals, as the properties under study are algebraic identities and
order/threshold facts about the arithmetic expressions of the source.
Pandas DataFrames are embedded as lists of records; a DataFrame column
read such as row["Revenue"] becomes a structure projection.
-/

namespace DCF

/-- config.py ScenarioSet: multiplicative/additive overlay on a ForecastConfig. -/
structure ScenarioSet where
  revenue_multiplier : ℚ := 1
  margin_delta_bps : ℚ := 0
  working_capital_days_delta : ℚ := 0
  capex_multiplier : ℚ := 1
  deriving DecidableEq

/-- config.py ForecastConfig.  The method fields are plain strings in the
embedding: the Literal annotations of the source are static hints only and
the runtime accepts any string, which is what the dispatch functions below
see. -/
structure ForecastConfig where
  years : Int := 5
  revenue_method : String := "cagr"
  revenue_cagr : ℚ := 0.08
  revenue_yoy : ℚ := 0.07
  revenue_manual : List (Nat × ℚ) := []
  cogs_method : String := "pct_revenue"
  cogs_pct_revenue : ℚ := 0.45
  cogs_fixed : ℚ := 0
  cogs_inflation : ℚ := 0.03
  opex_method : String := "pct_revenue"
  opex_pct_revenue : ℚ := 0.25
  opex_fixed : ℚ := 0
  opex_inflation : ℚ := 0.03
  dso : ℚ := 45
  dpo : ℚ := 40
  dio : ℚ := 50
  capex_method : String := "pct_revenue"
  capex_pct_revenue : ℚ := 0.04
  capex_fixed : ℚ := 0
  depreciation_rate : ℚ := 0.12
  tax_rate : ℚ := 0.25
  deriving DecidableEq

/-- One standardized ledger row of the mapped data handed to build_forecast
(columns period, standard_account, amount).  Periods are embedded as
integers (calendar order is all the code uses). -/
structure LedgerRow where
  period : Int
  standard_account : String
  amount : ℚ
  deriving DecidableEq

/-- One row of the pivoted historical summary produced by
forecast.py _build_historical_summary: one row per period, one column per
standardized account, absent accounts filled with 0.0, NWC and PPE derived. -/
structure HistRow where
  period : Int
  revenue : ℚ
  cogs : ℚ
  opex : ℚ
  depreciation : ℚ
  accounts_receivable : ℚ
  inventory : ℚ
  accounts_payable : ℚ
  nwc : ℚ
  ppe : ℚ
  deriving DecidableEq

/-- Sum of the amounts of the ledger rows with the given period and
standardized account (the groupby/sum/pivot cell; 0.0 when the account is
absent for the period, matching fillna(0.0) and the zero-filled columns). -/
def sumFor (mapped : List LedgerRow) (p : Int) (acct : String) : ℚ :=
  ((mapped.filter (fun r => r.period = p && r.standard_account = acct)).map
    (fun r => r.amount)).sum

/-- The summary row of one period (forecast.py lines 103-119): each account
column summed, NWC = AR + Inventory - AP, PPE kept (zero when absent). -/
def histRowAt (mapped : List LedgerRow) (p : Int) : HistRow :=
  let ar := sumFor mapped p "Accounts Receivable"
  let inv := sumFor mapped p "Inventory"
  let ap := sumFor mapped p "Accounts Payable"
  { period := p
    revenue := sumFor mapped p "Revenue"
    cogs := sumFor mapped p "COGS"
    opex := sumFor mapped p "Operating Expenses"
    depreciation := sumFor mapped p "Depreciation"
    accounts_receivable := ar
    inventory := inv
    accounts_payable := ap
    nwc := ar + inv - ap
    ppe := sumFor mapped p "PPE" }

/-- forecast.py _build_historical_summary: one row per distinct period of
the mapped data, period-ascending (DataFrame.pivot sorts its index). -/
def build_historical_summary (mapped : List LedgerRow) : List HistRow :=
  (List.insertionSort (fun a b => a ≤ b) (mapped.map (fun r => r.period)).dedup).map
    (histRowAt mapped)

/-- forecast.py _revenue_growth: cagr and yoy are recognized; any other
method string falls through to the manual per-index override map with
default 0.0 (dict.get). -/
def revenue_growth (cfg : ForecastConfig) (year_idx : Nat) : ℚ :=
  if cfg.revenue_method = "cagr" then cfg.revenue_cagr
  else if cfg.revenue_method = "yoy" then cfg.revenue_yoy
  else ((cfg.revenue_manual.lookup year_idx).getD 0)

/-- Mean of the last up-to-3 values of a historical column
(hist_series.tail(3).mean()). -/
def tail3Mean (vals : List ℚ) : ℚ :=
  let t := vals.drop (vals.length - 3)
  t.sum / t.length

/-- forecast.py _cost_value: percent-of-revenue, fixed-with-inflation, and
for any other method string the trailing historical average (with the
empty-series guard returning 0.0). -/
def cost_value (method : String) (pct fixed inflation revenue : ℚ) (year_idx : Nat)
    (histVals : List ℚ) : ℚ :=
  if method = "pct_revenue" then revenue * pct
  else if method = "fixed_inflation" then
    fixed * (1 + inflation) ^ (max ((year_idx : Int) - 1) 0).toNat
  else if histVals.isEmpty then 0
  else tail3Mean histVals

/-- One projected period (forecast.py ForecastRow columns, in source
order). -/
structure ForecastRow where
  period : Int
  revenue : ℚ
  cogs : ℚ
  opex : ℚ
  ebitda : ℚ
  depreciation : ℚ
  ebit : ℚ
  nopat : ℚ
  capex : ℚ
  ar : ℚ
  inventory : ℚ
  ap : ℚ
  nwc : ℚ
  delta_nwc : ℚ
  fcf : ℚ
  ppe_existing : ℚ
  ppe_new : ℚ
  dep_existing : ℚ
  dep_new : ℚ
  deriving DecidableEq

/-- The body of build_forecast's loop (forecast.py lines 34-90) for one
period index: all per-period flows, given the carried state (previous
revenue, the two asset bases, previous NWC). -/
def makeForecastRow (cfg : ForecastConfig) (scenario : ScenarioSet)
    (hist : List HistRow) (base : HistRow) (idx : Nat)
    (prevRevenue ppeExisting ppeNew prevNwc : ℚ) : ForecastRow :=
  let growth := revenue_growth cfg idx
  let revenue := prevRevenue * (1 + growth) * scenario.revenue_multiplier
  let gross_margin_shift := scenario.margin_delta_bps / 10000
  let cogs0 := cost_value cfg.cogs_method cfg.cogs_pct_revenue cfg.cogs_fixed
    cfg.cogs_inflation revenue idx (hist.map (fun h => h.cogs))
  let opex := cost_value cfg.opex_method cfg.opex_pct_revenue cfg.opex_fixed
    cfg.opex_inflation revenue idx (hist.map (fun h => h.opex))
  let cogs := cogs0 * (1 - gross_margin_shift)
  let ebitda := revenue - cogs - opex
  let capex := (if cfg.capex_method = "pct_revenue" then revenue * cfg.capex_pct_revenue
    else cfg.capex_fixed) * scenario.capex_multiplier
  let dep_existing := ppeExisting * cfg.depreciation_rate
  let dep_new := ppeNew * cfg.depreciation_rate
  let depreciation := dep_existing + dep_new
  let ebit := ebitda - depreciation
  let nopat := ebit * (1 - cfg.tax_rate)
  let adj_dso := cfg.dso + scenario.working_capital_days_delta
  let adj_dpo := cfg.dpo + scenario.working_capital_days_delta
  let adj_dio := cfg.dio + scenario.working_capital_days_delta
  let ar := revenue * adj_dso / 365
  let inv := cogs * adj_dio / 365
  let ap := cogs * adj_dpo / 365
  let nwc := ar + inv - ap
  let delta_nwc := nwc - prevNwc
  let fcf := nopat + depreciation - capex - delta_nwc
  { period := base.period + (idx : Int)
    revenue := revenue
    cogs := cogs
    opex := opex
    ebitda := ebitda
    depreciation := depreciation
    ebit := ebit
    nopat := nopat
    capex := capex
    ar := ar
    inventory := inv
    ap := ap
    nwc := nwc
    delta_nwc := delta_nwc
    fcf := fcf
    ppe_existing := ppeExisting
    ppe_new := ppeNew
    dep_existing := dep_existing
    dep_new := dep_new }

/-- build_forecast's loop: n remaining periods starting at index idx, with
the carried state; each iteration appends one row and updates the state
exactly as lines 63 and 92-93 of forecast.py (prev NWC from the row just
produced, asset bases rolled forward floored at 0). -/
def forecastRows (cfg : ForecastConfig) (scenario : ScenarioSet)
    (hist : List HistRow) (base : HistRow) :
    Nat → Nat → ℚ → ℚ → ℚ → ℚ → List ForecastRow
  | _, 0, _, _, _, _ => []
  | idx, n + 1, prevRevenue, ppeExisting, ppeNew, prevNwc =>
    let row := makeForecastRow cfg scenario hist base idx prevRevenue ppeExisting
      ppeNew prevNwc
    row :: forecastRows cfg scenario hist base (idx + 1) n row.revenue
      (max (ppeExisting - row.dep_existing) 0) (max (ppeNew + row.capex - row.dep_new) 0)
      row.nwc

/-- Failures build_forecast can raise.  emptyHistory is the
ValueError("No usable historical data after mapping.") of line 20, the
error the spec taxonomy names EmptyHistoryError.  keyError is the pandas
KeyError raised at line 97: with no rows produced, pd.DataFrame(rows) has
no columns and the schedule column selection
fc[["period", "PPE Existing", ...]] fails. -/
inductive DCFError where
  | emptyHistory
  | keyError
  deriving DecidableEq

/-- forecast.py ForecastResult.  The two schedules of the source are column
subsets of the forecast frame (copies of existing columns) and are not
separately modelled. -/
structure ForecastResult where
  forecast : List ForecastRow
  deriving DecidableEq

/-- forecast.py build_forecast: summarize, anchor on the latest historical
row, run the projection loop for cfg.years periods (an empty range when
years ≤ 0, in which case the schedule selection on the empty frame raises
KeyError). -/
def build_forecast (mapped : List LedgerRow) (cfg : ForecastConfig)
    (scenario : ScenarioSet) : Except DCFError ForecastResult :=
  let hist := build_historical_summary mapped
  match hist.getLast? with
  | none => .error .emptyHistory
  | some base =>
    let rows := forecastRows cfg scenario hist base 1 cfg.years.toNat base.revenue
      (max base.ppe 0) 0 base.nwc
    if rows.isEmpty then .error .keyError
    else .ok { forecast := rows }

/-- The Revenue column of a forecast result (empty on failure); used to
state per-period revenue facts. -/
def forecastRevenues (res : Except DCFError ForecastResult) : List ℚ :=
  match res with
  | .ok r => r.forecast.map (fun row => row.revenue)
  | .error _ => []

/-- config.py WACCConfig. -/
structure WACCConfig where
  risk_free_rate : ℚ := 0.042
  market_risk_premium : ℚ := 0.055
  beta : ℚ := 1.1
  size_premium : ℚ := 0
  country_risk_premium : ℚ := 0
  target_debt_weight : ℚ := 0.3
  target_equity_weight : ℚ := 0.7
  interest_coverage_ratio : ℚ := 5
  tax_rate : ℚ := 0.25
  deriving DecidableEq

/-- wacc.py WACCResult. -/
structure WACCResult where
  cost_of_equity : ℚ
  cost_of_debt_pre_tax : ℚ
  cost_of_debt_after_tax : ℚ
  wacc : ℚ
  synthetic_rating : String
  deriving DecidableEq

/-- wacc.py synthetic_credit_spread's grid, in source order (descending
thresholds). -/
def creditGrid : List (ℚ × String × ℚ) :=
  [(8.5, "AAA", 0.007), (6.5, "AA", 0.010), (5.0, "A", 0.012), (4.0, "BBB", 0.015),
   (3.0, "BB", 0.020), (2.0, "B", 0.030), (1.0, "CCC", 0.045), (0.0, "CC", 0.060)]

/-- The scan of wacc.py's for-loop over the grid: first satisfied
threshold wins, falling through to ("D", 0.08). -/
def findSpread (icr : ℚ) : List (ℚ × String × ℚ) → String × ℚ
  | [] => ("D", 0.08)
  | e :: rest => if icr ≥ e.1 then (e.2.1, e.2.2) else findSpread icr rest

/-- wacc.py synthetic_credit_spread. -/
def synthetic_credit_spread (interest_coverage_ratio : ℚ) : String × ℚ :=
  findSpread interest_coverage_ratio creditGrid

/-- wacc.py compute_wacc: CAPM-style cost of equity (beta_override
substituting for the configured beta when present), synthetic-rating cost
of debt, blend by target weights. -/
def compute_wacc (cfg : WACCConfig) (beta_override : Option ℚ := none) : WACCResult :=
  let beta := beta_override.getD cfg.beta
  let cost_of_equity := cfg.risk_free_rate + beta * cfg.market_risk_premium +
    cfg.size_premium + cfg.country_risk_premium
  let rs := synthetic_credit_spread cfg.interest_coverage_ratio
  let cost_of_debt_pre_tax := cfg.risk_free_rate + rs.2
  let cost_of_debt_after_tax := cost_of_debt_pre_tax * (1 - cfg.tax_rate)
  { cost_of_equity := cost_of_equity
    cost_of_debt_pre_tax := cost_of_debt_pre_tax
    cost_of_debt_after_tax := cost_of_debt_after_tax
    wacc := cfg.target_equity_weight * cost_of_equity +
      cfg.target_debt_weight * cost_of_debt_after_tax
    synthetic_rating := rs.1 }

/-- config.py ValuationConfig. -/
structure ValuationConfig where
  terminal_method : String := "both"
  terminal_growth_rate : ℚ := 0.025
  exit_ev_ebitda_multiple : ℚ := 10
  discount_convention : String := "mid_year"
  cash : ℚ := 0
  debt : ℚ := 0
  minority_interest : ℚ := 0
  preferred_stock : ℚ := 0
  fully_diluted_shares : ℚ := 1000000
  gdp_growth_cap : ℚ := 0.035
  terminal_value_blend_weight_gordon : ℚ := 0.5
  terminal_spread_floor_bps : ℚ := 50
  deriving DecidableEq

/-- The terminal-growth policy fields of valuation.py run_dcf (lines 33
and 46-49, reported at lines 89-90): effective WACC floored at 1e-6, the
growth cap, the spread floor with its own 1e-6 floor, the effective
terminal growth, the reported WACC-minus-growth spread, and the floored
Gordon denominator of line 49.  The discount-factor, present-value and
enterprise-value fields of run_dcf involve fractional real powers and are
outside the scope of the claims, so they are not modelled. -/
structure TerminalPolicy where
  effective_wacc : ℚ
  spread_floor : ℚ
  effective_terminal_growth_rate : ℚ
  terminal_wacc_spread : ℚ
  gordon_denominator : ℚ
  deriving DecidableEq

/-- The terminal-growth slice of valuation.py run_dcf.  run_dcf reads the
final forecast row (df.iloc[-1]), which fails on an empty forecast, so the
slice is defined only for a non-empty forecast (none otherwise). -/
def run_dcf_terminal (forecast : List ForecastRow) (wacc : WACCResult)
    (cfg : ValuationConfig) : Option TerminalPolicy :=
  if forecast.isEmpty then none
  else
    let effective_wacc := max wacc.wacc (1e-6 : ℚ)
    let g := min cfg.terminal_growth_rate cfg.gdp_growth_cap
    let spread_floor := max (cfg.terminal_spread_floor_bps / 10000) (1e-6 : ℚ)
    let effective_g := min g (effective_wacc - spread_floor)
    some
      { effective_wacc := effective_wacc
        spread_floor := spread_floor
        effective_terminal_growth_rate := effective_g
        terminal_wacc_spread := effective_wacc - effective_g
        gordon_denominator := max (effective_wacc - effective_g) (1e-6 : ℚ) }

/-- config.py DCFConfig's default scenario registry (a dict, embedded as an
association list in insertion order). -/
def defaultScenarios : List (String × ScenarioSet) :=
  [("Base", {}),
   ("Bull", { revenue_multiplier := 1.1, margin_delta_bps := 150,
              working_capital_days_delta := -3 }),
   ("Bear", { revenue_multiplier := 0.9, margin_delta_bps := -150,
              working_capital_days_delta := 4 })]

/-- pipeline.py's scenario-lookup failure (the
ValueError("Unknown scenario ...") of line 25, which the spec taxonomy
names UnknownScenarioError); it carries the requested name and the list of
available names. -/
inductive PipelineError where
  | unknownScenario (name : String) (available : List String)
  deriving DecidableEq

/-- pipeline.py lines 23-25: scenario selection by name against the
registry; an unknown name raises the error listing the registry keys. -/
def lookupScenario (scenarios : List (String × ScenarioSet)) (name : String) :
    Except PipelineError ScenarioSet :=
  match scenarios.lookup name with
  | some s => .ok s
  | none => .error (.unknownScenario name (scenarios.map (fun e => e.1)))

/-- One audit record of pipeline.py _build_checks. -/
structure CheckRecord where
  period : Int
  check : String
  value : ℚ
  status : String
  deriving DecidableEq

/-- The per-period Balance Sheet Check of pipeline.py _build_checks
(lines 115-127): assets = AR + Inventory, liabilities-plus-equity =
AP + max(assets - AP, 0), gap = assets - liabilities_plus_equity, status
PASS when the absolute gap is below 1e-6 and FAIL otherwise. -/
def balance_sheet_check (row : ForecastRow) : CheckRecord :=
  let assets := row.ar + row.inventory
  let liabilities_plus_equity := row.ap + max (assets - row.ap) 0
  let balance_gap := assets - liabilities_plus_equity
  { period := row.period
    check := "Balance Sheet Check"
    value := balance_gap
    status := if |balance_gap| < (1e-6 : ℚ) then "PASS" else "FAIL" }

/-- The list of per-period Balance Sheet Check records of _build_checks
(the other audit records depend on the valuation summary and are not
needed here). -/
def balanceChecks (forecast : List ForecastRow) : List CheckRecord :=
  forecast.map balance_sheet_check

/-! ### Concrete fixtures used by counterexamples and witnesses -/

/-- A one-row ledger: Revenue 1000 in period 2023. -/
def sampleLedger : List LedgerRow :=
  [{ period := 2023, standard_account := "Revenue", amount := 1000 }]

/-- A one-row ledger with zero Revenue (one usable period, all flows 0). -/
def zeroLedger : List LedgerRow :=
  [{ period := 2023, standard_account := "Revenue", amount := 0 }]

/-- A forecast row with all flows zero. -/
def rowZero : ForecastRow :=
  { period := 2024, revenue := 0, cogs := 0, opex := 0, ebitda := 0, depreciation := 0,
    ebit := 0, nopat := 0, capex := 0, ar := 0, inventory := 0, ap := 0, nwc := 0,
    delta_nwc := 0, fcf := 0, ppe_existing := 0, ppe_new := 0, dep_existing := 0,
    dep_new := 0 }

/-- A WACCResult with blended WACC 8%. -/
def waccSample : WACCResult :=
  { cost_of_equity := 0, cost_of_debt_pre_tax := 0, cost_of_debt_after_tax := 0,
    wacc := 0.08, synthetic_rating := "A" }

/-- The terminal policy run_dcf computes for waccSample under the default
ValuationConfig. -/
def terminalSample : TerminalPolicy :=
  { effective_wacc := 0.08, spread_floor := 0.005, effective_terminal_growth_rate := 0.025,
    terminal_wacc_spread := 0.055, gordon_denominator := 0.055 }

/-! ### C4: the terminal spread floor -/

/-- C4: for every non-empty forecast, WACCResult and ValuationConfig, the
effective terminal growth used by run_dcf satisfies
effective_wacc - effective_g ≥ spread_floor where
spread_floor = max(terminal_spread_floor_bps/10000, 1e-6) > 0; hence the
reported terminal_wacc_spread is at least the floor and the Gordon
denominator is bounded away from zero. -/
theorem C4_spread_floor (forecast : List ForecastRow) (wacc : WACCResult)
    (cfg : ValuationConfig) (t : TerminalPolicy)
    (h : run_dcf_terminal forecast wacc cfg = some t) :
    t.spread_floor = max (cfg.terminal_spread_floor_bps / 10000) 1e-6 ∧
    0 < t.spread_floor ∧
    t.spread_floor ≤ t.effective_wacc - t.effective_terminal_growth_rate ∧
    t.spread_floor ≤ t.terminal_wacc_spread ∧
    t.spread_floor ≤ t.gordon_denominator := by
  unfold run_dcf_terminal at h
  split at h
  · exact absurd h (by simp)
  · rw [Option.some.injEq] at h
    subst h
    dsimp only
    have h1 : min (min cfg.terminal_growth_rate cfg.gdp_growth_cap)
        (max wacc.wacc 1e-6 - max (cfg.terminal_spread_floor_bps / 10000) 1e-6) ≤
        max wacc.wacc 1e-6 - max (cfg.terminal_spread_floor_bps / 10000) 1e-6 :=
      min_le_right _ _
    have h2 : (0 : ℚ) < max (cfg.terminal_spread_floor_bps / 10000) 1e-6 :=
      lt_of_lt_of_le (by norm_num) (le_max_right _ _)
    refine ⟨rfl, h2, by linarith, by linarith, ?_⟩
    exact le_trans (by linarith) (le_max_left _ _)

/-- C4 witness: the theorem applied to a concrete one-row forecast, an 8%
WACC and the default ValuationConfig. -/
theorem C4_spread_floor_witness :
    terminalSample.spread_floor = max ((50 : ℚ) / 10000) 1e-6 ∧
    0 < terminalSample.spread_floor ∧
    terminalSample.spread_floor ≤
      terminalSample.effective_wacc - terminalSample.effective_terminal_growth_rate ∧
    terminalSample.spread_floor ≤ terminalSample.terminal_wacc_spread ∧
    terminalSample.spread_floor ≤ terminalSample.gordon_denominator :=
  C4_spread_floor [rowZero] waccSample {} terminalSample
    (by norm_num [run_dcf_terminal, terminalSample, waccSample, max_def, min_def])

/-! ### C5: compute_wacc and the synthetic-rating table -/

/-- C5: compute_wacc's cost of equity is
risk_free + beta × MRP + size premium + country premium (with beta_override
substituting when non-null); synthetic_credit_spread is the descending
first-match threshold table of the claim; pre-tax cost of debt is
risk_free + spread, after-tax is pre-tax × (1 − tax), and WACC is the
weight-blended average; coverage 5.0 yields rating A with a 120bps
spread. -/
theorem C5_compute_wacc :
    (∀ (cfg : WACCConfig) (o : Option ℚ),
      (compute_wacc cfg o).cost_of_equity =
        cfg.risk_free_rate + (o.getD cfg.beta) * cfg.market_risk_premium +
          cfg.size_premium + cfg.country_risk_premium ∧
      (compute_wacc cfg o).cost_of_debt_pre_tax =
        cfg.risk_free_rate + (synthetic_credit_spread cfg.interest_coverage_ratio).2 ∧
      (compute_wacc cfg o).cost_of_debt_after_tax =
        (compute_wacc cfg o).cost_of_debt_pre_tax * (1 - cfg.tax_rate) ∧
      (compute_wacc cfg o).wacc =
        cfg.target_equity_weight * (compute_wacc cfg o).cost_of_equity +
          cfg.target_debt_weight * (compute_wacc cfg o).cost_of_debt_after_tax ∧
      (compute_wacc cfg o).synthetic_rating =
        (synthetic_credit_spread cfg.interest_coverage_ratio).1) ∧
    (∀ x : ℚ, synthetic_credit_spread x =
      if x ≥ 8.5 then ("AAA", 0.007) else if x ≥ 6.5 then ("AA", 0.010)
      else if x ≥ 5.0 then ("A", 0.012) else if x ≥ 4.0 then ("BBB", 0.015)
      else if x ≥ 3.0 then ("BB", 0.020) else if x ≥ 2.0 then ("B", 0.030)
      else if x ≥ 1.0 then ("CCC", 0.045) else if x ≥ 0.0 then ("CC", 0.060)
      else ("D", 0.08)) ∧
    synthetic_credit_spread 5 = ("A", 0.012) := by
  refine ⟨fun cfg o => ⟨rfl, rfl, rfl, rfl, rfl⟩, fun x => ?_, ?_⟩
  · simp [synthetic_credit_spread, creditGrid, findSpread]
  · norm_num [synthetic_credit_spread, creditGrid, findSpread]

/-! ### C10: totality and monotonicity of the spread table -/

/-- findSpread always answers with a grid entry or the fallback pair. -/
lemma findSpread_mem (z : ℚ) :
    ∀ grid, findSpread z grid ∈ grid.map (fun e => (e.2.1, e.2.2)) ++ [("D", (0.08 : ℚ))]
  | [] => by simp [findSpread]
  | e :: rest => by
    rw [findSpread]
    split
    · simp
    · simpa using Or.inr (findSpread_mem z rest)

/-- A lower bound on every grid spread (and on the fallback) bounds
findSpread's answer. -/
lemma findSpread_spread_ge (c : ℚ) (hc : c ≤ 0.08) (z : ℚ) :
    ∀ grid, (∀ e ∈ grid, c ≤ e.2.2) → c ≤ (findSpread z grid).2
  | [] => fun _ => by simpa [findSpread] using hc
  | e :: rest => fun h => by
    rw [findSpread]
    split
    · exact h e (List.mem_cons_self e rest)
    · exact findSpread_spread_ge c hc z rest (fun b hb => h b (List.mem_cons_of_mem e hb))

/-- On a grid whose spreads ascend (and stay below the fallback), a larger
coverage never gets a larger spread. -/
lemma findSpread_antitone (x y : ℚ) (hxy : y ≤ x) :
    ∀ grid, List.Pairwise (fun a b => a.2.2 ≤ b.2.2) grid →
      (∀ e ∈ grid, e.2.2 ≤ 0.08) →
      (findSpread x grid).2 ≤ (findSpread y grid).2
  | [] => fun _ _ => le_refl _
  | e :: rest => fun hp hb => by
    rw [List.pairwise_cons] at hp
    rw [findSpread, findSpread]
    rcases le_or_lt e.1 x with hx | hx
    · rw [if_pos hx]
      rcases le_or_lt e.1 y with hy | hy
      · rw [if_pos hy]
      · rw [if_neg (not_le.mpr hy)]
        exact findSpread_spread_ge e.2.2 (hb e (List.mem_cons_self e rest)) y rest hp.1
    · rw [if_neg (not_le.mpr hx), if_neg (not_le.mpr (lt_of_le_of_lt hxy hx))]
      exact findSpread_antitone x y hxy rest hp.2
        (fun b hbm => hb b (List.mem_cons_of_mem e hbm))

/-- C10: synthetic_credit_spread is total on all rational coverage values
(negative included), always returning one of the nine fixed
(rating, spread) pairs, and its spread is antitone in coverage: a higher
coverage never gets a larger spread. -/
theorem C10_spread_total_monotone :
    (∀ x : ℚ, synthetic_credit_spread x ∈
      ([("AAA", 0.007), ("AA", 0.010), ("A", 0.012), ("BBB", 0.015), ("BB", 0.020),
        ("B", 0.030), ("CCC", 0.045), ("CC", 0.060), ("D", 0.08)] : List (String × ℚ))) ∧
    ∀ x y : ℚ, y ≤ x → (synthetic_credit_spread x).2 ≤ (synthetic_credit_spread y).2 := by
  constructor
  · intro x
    have h := findSpread_mem x creditGrid
    simpa [creditGrid, synthetic_credit_spread] using h
  · intro x y hxy
    refine findSpread_antitone x y hxy creditGrid ?_ ?_
    · simp only [creditGrid, List.pairwise_cons, List.mem_cons, List.mem_singleton]
      norm_num
    · simp only [creditGrid, List.mem_cons, List.mem_singleton]
      rintro e (rfl | rfl | rfl | rfl | rfl | rfl | rfl | rfl | h) <;> norm_num
      · cases h

/-- C10 witness: coverage 3 does not get a larger spread than coverage 2. -/
theorem C10_spread_total_monotone_witness :
    (2 : ℚ) ≤ 3 ∧ (synthetic_credit_spread 3).2 ≤ (synthetic_credit_spread 2).2 :=
  ⟨by norm_num, C10_spread_total_monotone.2 3 2 (by norm_num)⟩

/-! ### C7: scenario registry lookup -/

/-- C7: the default registry's names are exactly Base, Bull, Bear; looking
up a name that is not a registry key fails with the unknown-scenario error
listing the registry's names (so the pipeline raises it and aborts), and
looking up a registered name succeeds with no such error; in particular
the name Moon fails listing Base, Bull, Bear. -/
theorem C7_scenario_lookup :
    (defaultScenarios.map (fun e => e.1) = ["Base", "Bull", "Bear"]) ∧
    (∀ (scenarios : List (String × ScenarioSet)) (name : String),
      scenarios.lookup name = none →
      lookupScenario scenarios name =
        .error (.unknownScenario name (scenarios.map (fun e => e.1)))) ∧
    (∀ (scenarios : List (String × ScenarioSet)) (name : String) (s : ScenarioSet),
      scenarios.lookup name = some s → lookupScenario scenarios name = .ok s) ∧
    lookupScenario defaultScenarios "Moon" =
      .error (.unknownScenario "Moon" ["Base", "Bull", "Bear"]) := by
  refine ⟨rfl, ?_, ?_, ?_⟩
  · intro scenarios name h
    simp [lookupScenario, h]
  · intro scenarios name s h
    simp [lookupScenario, h]
  · simp [lookupScenario, defaultScenarios, List.lookup]

/-- C7 witness: the lookup theorem applied to the default registry at the
unknown name Moon and at the registered name Base. -/
theorem C7_scenario_lookup_witness :
    lookupScenario defaultScenarios "Moon" =
      .error (.unknownScenario "Moon" ["Base", "Bull", "Bear"]) ∧
    lookupScenario defaultScenarios "Base" = .ok {} :=
  ⟨C7_scenario_lookup.2.2.2,
   C7_scenario_lookup.2.2.1 defaultScenarios "Base" {} (by simp [defaultScenarios, List.lookup])⟩

/-! ### C8: empty history -/

/-- C8: when summarization yields no usable historical periods,
build_forecast fails with the empty-history error (the
ValueError the spec taxonomy names EmptyHistoryError) rather than
returning a result; when at least one period results, that error is never
raised. -/
theorem C8_empty_history (mapped : List LedgerRow) (cfg : ForecastConfig)
    (s : ScenarioSet) :
    (build_historical_summary mapped = [] →
      build_forecast mapped cfg s = .error .emptyHistory) ∧
    (build_historical_summary mapped ≠ [] →
      build_forecast mapped cfg s ≠ .error .emptyHistory) := by
  constructor
  · intro h
    simp [build_forecast, h]
  · intro h hcontra
    unfold build_forecast at hcontra
    dsimp only at hcontra
    split at hcontra
    · rename_i heq
      exact absurd (List.getLast?_eq_none_iff.mp heq) h
    · split at hcontra <;> simp at hcontra

/-- C8 witness: the empty ledger summarizes to no periods and fails with
the empty-history error; the one-row sample ledger never raises it. -/
theorem C8_empty_history_witness :
    build_forecast [] {} {} = .error .emptyHistory ∧
    build_forecast sampleLedger {} {} ≠ .error .emptyHistory :=
  ⟨(C8_empty_history [] {} {}).1 rfl,
   (C8_empty_history sampleLedger {} {}).2 (by
     simp [build_historical_summary, sampleLedger, List.dedup, List.insertionSort,
       List.orderedInsert])⟩

/-! ### C6: the balance-sheet check -/

/-- C6 counterexample: a forecast produced by build_forecast (anchor
Revenue 1000, zero growth, DSO 0, DIO 0, DPO 365) whose only period has
AP = 450 against AR + Inventory = 0, so the Balance Sheet Check records
gap -450 and status FAIL — the check is not unfailable. -/
theorem C6_counterexample :
    (build_forecast sampleLedger
        { years := 1, revenue_cagr := 0, dso := 0, dio := 0, dpo := 365 } {}).toOption.map
      (fun r => (balanceChecks r.forecast).map (fun c => (c.value, c.status))) =
    some [(-450, "FAIL")] := by
  norm_num +decide [build_forecast, build_historical_summary, histRowAt, sumFor, forecastRows,
    makeForecastRow, revenue_growth, cost_value, tail3Mean, balanceChecks,
    balance_sheet_check, sampleLedger, List.insertionSort, List.orderedInsert,
    List.dedup, List.filter, Except.toOption, max_def, min_def, abs]

/-- C6 (amended): the per-period Balance Sheet Check is one-sided rather
than unfailable: its gap equals min(AR + Inventory - AP, 0), the status is
PASS whenever AR + Inventory ≥ AP (the gap is then 0 by construction), and
the status is FAIL whenever AP exceeds AR + Inventory by at least the 1e-6
tolerance. -/
theorem C6_balance_check (row : ForecastRow) :
    (balance_sheet_check row).value = min (row.ar + row.inventory - row.ap) 0 ∧
    (row.ap ≤ row.ar + row.inventory → (balance_sheet_check row).status = "PASS") ∧
    (row.ar + row.inventory + 1e-6 ≤ row.ap → (balance_sheet_check row).status = "FAIL") := by
  unfold balance_sheet_check
  dsimp only
  refine ⟨?_, ?_, ?_⟩
  · rcases le_total row.ap (row.ar + row.inventory) with h | h
    · rw [max_eq_left (by linarith), min_eq_right (by linarith)]
      ring
    · rw [max_eq_right (by linarith), min_eq_left (by linarith)]
      ring
  · intro h
    rw [max_eq_left (by linarith)]
    have h0 : row.ar + row.inventory - (row.ap + (row.ar + row.inventory - row.ap)) = 0 := by
      ring
    rw [h0]
    norm_num
  · intro h
    rw [max_eq_right (by linarith)]
    have h0 : |row.ar + row.inventory - (row.ap + 0)| = row.ap - (row.ar + row.inventory) := by
      rw [abs_of_nonpos (by linarith)]
      ring
    rw [if_neg (not_lt.mpr (by rw [h0]; linarith))]

/-- C6 witness: the amended theorem applied to the all-zero row, whose
check passes. -/
theorem C6_balance_check_witness :
    (balance_sheet_check rowZero).status = "PASS" :=
  (C6_balance_check rowZero).2.1 (by norm_num [rowZero])

/-! ### C2: the scenario margin delta on COGS -/

/-- Under the percent-of-revenue COGS method, every row produced by the
forecast loop carries COGS = Revenue × pct × (1 − margin_delta_bps/10000):
the margin shift is multiplicative on COGS, applied to whatever the cost
method produced. -/
lemma forecastRows_cogs_pct (cfg : ForecastConfig) (s : ScenarioSet) (hist : List HistRow)
    (base : HistRow) (hm : cfg.cogs_method = "pct_revenue") :
    ∀ (n idx : Nat) (r pE pN pn : ℚ) (row : ForecastRow),
      row ∈ forecastRows cfg s hist base idx n r pE pN pn →
      row.cogs = row.revenue * cfg.cogs_pct_revenue * (1 - s.margin_delta_bps / 10000)
  | 0, idx, r, pE, pN, pn, row => by simp [forecastRows]
  | n + 1, idx, r, pE, pN, pn, row => by
    intro hmem
    rw [forecastRows] at hmem
    rcases List.mem_cons.mp hmem with h | h
    · subst h
      simp [makeForecastRow, cost_value, hm]
    · exact forecastRows_cogs_pct cfg s hist base hm n (idx + 1) _ _ _ _ row h

/-- C2 (amended): in build_forecast the scenario margin delta scales COGS
multiplicatively: under the percent-of-revenue COGS method every forecast
period has COGS(i) = Revenue(i) × cogs_pct_revenue × (1 − margin_delta_bps/10000),
not Revenue(i) × (cogs_pct_revenue − margin_delta_bps/10000). -/
theorem C2_cogs_margin_shift (mapped : List LedgerRow) (cfg : ForecastConfig)
    (s : ScenarioSet) (fr : ForecastResult)
    (hm : cfg.cogs_method = "pct_revenue")
    (hok : build_forecast mapped cfg s = .ok fr) :
    ∀ row ∈ fr.forecast,
      row.cogs = row.revenue * cfg.cogs_pct_revenue * (1 - s.margin_delta_bps / 10000) := by
  intro row hrow
  unfold build_forecast at hok
  dsimp only at hok
  split at hok
  · exact Except.noConfusion hok
  · split at hok
    · exact Except.noConfusion hok
    · rw [Except.ok.injEq] at hok
      subst hok
      exact forecastRows_cogs_pct cfg s _ _ hm _ _ _ _ _ _ row hrow

/-- C2 witness: the amended theorem applied to the zero-revenue ledger
with a 150bps margin delta. -/
theorem C2_cogs_margin_shift_witness :
    build_forecast zeroLedger { years := 1 } { margin_delta_bps := 150 } =
      .ok { forecast := [rowZero] } ∧
    rowZero.cogs = rowZero.revenue * (0.45 : ℚ) * (1 - (150 : ℚ) / 10000) := by
  have hok : build_forecast zeroLedger { years := 1 } { margin_delta_bps := 150 } =
      .ok { forecast := [rowZero] } := by
    norm_num +decide [build_forecast, build_historical_summary, histRowAt, sumFor, forecastRows,
      makeForecastRow, revenue_growth, cost_value, tail3Mean, zeroLedger, rowZero,
      List.insertionSort, List.orderedInsert, List.dedup, List.filter, max_def]
  exact ⟨hok,
    C2_cogs_margin_shift zeroLedger { years := 1 } { margin_delta_bps := 150 }
      { forecast := [rowZero] } rfl hok rowZero (by simp)⟩

/-- C2 counterexample: with anchor Revenue 1000, 8% growth and a 150bps
margin delta, period 1 has Revenue 1080 and COGS 478.71 = 1080 × 0.45 ×
0.985, while the claim's formula would give 1080 × (0.45 − 0.015) =
469.80. -/
theorem C2_counterexample :
    (build_forecast sampleLedger { years := 1 } { margin_delta_bps := 150 }).toOption.map
      (fun r => r.forecast.map (fun row => (row.revenue, row.cogs))) =
      some [(1080, 478.71)] ∧
    (478.71 : ℚ) ≠ 1080 * (0.45 - 150 / 10000) := by
  constructor
  · norm_num +decide [build_forecast, build_historical_summary, histRowAt, sumFor, forecastRows,
      makeForecastRow, revenue_growth, cost_value, tail3Mean, sampleLedger,
      List.insertionSort, List.orderedInsert, List.dedup, List.filter,
      Except.toOption, max_def]
  · norm_num

/-! ### C3: behavior on non-positive horizon and unknown methods -/

/-- C3 counterexample: an unrecognized revenue method name raises nothing:
build_forecast returns a one-row result (growth falls back to the manual
map's 0.0 default). -/
theorem C3_counterexample :
    (build_forecast sampleLedger { years := 1, revenue_method := "bogus" } {}).toOption.map
      (fun r => r.forecast.map (fun row => row.revenue)) = some [1000] := by
  norm_num +decide [build_forecast, build_historical_summary, histRowAt, sumFor, forecastRows,
    makeForecastRow, revenue_growth, cost_value, tail3Mean, sampleLedger,
    List.insertionSort, List.orderedInsert, List.dedup, List.filter,
    Except.toOption, max_def, List.lookup]

/-- C3 (amended): build_forecast performs no config validation.  With a
non-positive horizon it produces no rows and fails with the schedule
KeyError, not an InvalidConfigError; an unrecognized revenue method falls
back to the manual growth map (default 0.0) and an unrecognized cost
method falls back to the trailing historical average, and with a positive
horizon and usable history build_forecast returns a result, raising no
error. -/
theorem C3_no_config_validation :
    (∀ (mapped : List LedgerRow) (cfg : ForecastConfig) (s : ScenarioSet),
      cfg.years ≤ 0 → build_historical_summary mapped ≠ [] →
      build_forecast mapped cfg s = .error .keyError) ∧
    (∀ (cfg : ForecastConfig) (i : Nat),
      cfg.revenue_method ≠ "cagr" → cfg.revenue_method ≠ "yoy" →
      revenue_growth cfg i = (cfg.revenue_manual.lookup i).getD 0) ∧
    (∀ (method : String) (pct fixed inflation revenue : ℚ) (i : Nat) (vals : List ℚ),
      method ≠ "pct_revenue" → method ≠ "fixed_inflation" →
      cost_value method pct fixed inflation revenue i vals =
        if vals.isEmpty then 0 else tail3Mean vals) ∧
    (∀ (mapped : List LedgerRow) (cfg : ForecastConfig) (s : ScenarioSet),
      build_historical_summary mapped ≠ [] → 0 < cfg.years →
      ∃ fr, build_forecast mapped cfg s = .ok fr) := by
  refine ⟨?_, ?_, ?_, ?_⟩
  · intro mapped cfg s hy hne
    obtain ⟨base, hg⟩ : ∃ b, (build_historical_summary mapped).getLast? = some b := by
      cases hq : (build_historical_summary mapped).getLast? with
      | none => exact absurd (List.getLast?_eq_none_iff.mp hq) hne
      | some b => exact ⟨b, rfl⟩
    simp only [build_forecast, hg]
    rw [Int.toNat_of_nonpos hy]
    simp [forecastRows]
  · intro cfg i h1 h2
    unfold revenue_growth
    rw [if_neg h1, if_neg h2]
  · intro method pct fixed inflation revenue i vals h1 h2
    unfold cost_value
    rw [if_neg h1, if_neg h2]
  · intro mapped cfg s hne hy
    obtain ⟨base, hg⟩ : ∃ b, (build_historical_summary mapped).getLast? = some b := by
      cases hq : (build_historical_summary mapped).getLast? with
      | none => exact absurd (List.getLast?_eq_none_iff.mp hq) hne
      | some b => exact ⟨b, rfl⟩
    cases hn : cfg.years.toNat with
    | zero => omega
    | succ m =>
      simp only [build_forecast, hg, hn]
      rw [forecastRows]
      simp only [List.isEmpty_cons, Bool.false_eq_true, if_false]
      exact ⟨_, rfl⟩

/-- C3 witness: the amended theorem applied at a zero horizon, at an
unknown revenue method, at an unknown cost method, and at a one-row
positive-horizon run. -/
theorem C3_no_config_validation_witness :
    build_forecast sampleLedger { years := 0 } {} = .error .keyError ∧
    revenue_growth { revenue_method := "bogus" } 1 = 0 ∧
    cost_value "bogus" 1 2 3 4 1 [5] = tail3Mean [5] ∧
    ∃ fr, build_forecast sampleLedger { years := 1, revenue_method := "bogus" } {} =
      .ok fr := by
  have hne : build_historical_summary sampleLedger ≠ [] := by
    simp [build_historical_summary, sampleLedger, List.dedup, List.insertionSort,
      List.orderedInsert]
  refine ⟨C3_no_config_validation.1 sampleLedger { years := 0 } {} (by norm_num) hne,
    C3_no_config_validation.2.1 { revenue_method := "bogus" } 1 (by decide) (by decide),
    C3_no_config_validation.2.2.1 "bogus" 1 2 3 4 1 [5] (by decide) (by decide),
    C3_no_config_validation.2.2.2 sampleLedger { years := 1, revenue_method := "bogus" } {}
      hne (by norm_num)⟩

/-! ### C1: the revenue multiplier compounds -/

/-- The revenue recursion of build_forecast's loop in isolation:
Revenue(i) = Revenue(i-1) × (1 + growth(i)) × multiplier. -/
def revenueList (cfg : ForecastConfig) (m : ℚ) : Nat → Nat → ℚ → List ℚ
  | _, 0, _ => []
  | idx, n + 1, r =>
    let r1 := r * (1 + revenue_growth cfg idx) * m
    r1 :: revenueList cfg m (idx + 1) n r1

/-- The Revenue column of the forecast loop depends only on the starting
revenue, the growth schedule and the scenario multiplier. -/
lemma forecastRows_map_revenue (cfg : ForecastConfig) (s : ScenarioSet)
    (hist : List HistRow) (base : HistRow) (n : Nat) :
    ∀ (idx : Nat) (r pE pN pn : ℚ),
      (forecastRows cfg s hist base idx n r pE pN pn).map (fun row => row.revenue) =
        revenueList cfg s.revenue_multiplier idx n r := by
  induction n with
  | zero => intro idx r pE pN pn; simp [forecastRows, revenueList]
  | succ n ih =>
    intro idx r pE pN pn
    rw [forecastRows, revenueList]
    simp only [List.map_cons, List.cons.injEq]
    refine ⟨by simp [makeForecastRow], ?_⟩
    rw [ih]
    exact congrArg (revenueList cfg s.revenue_multiplier (idx + 1) n)
      (by simp [makeForecastRow])

/-- Every projected revenue list has one entry per remaining period. -/
lemma revenueList_length (cfg : ForecastConfig) (m : ℚ) (n : Nat) :
    ∀ (idx : Nat) (r : ℚ), (revenueList cfg m idx n r).length = n := by
  induction n with
  | zero => intro idx r; simp [revenueList]
  | succ n ih =>
    intro idx r
    simp [revenueList, ih]

/-- The product of the growth factors of periods idx, ..., idx+k-1. -/
def growthProd (cfg : ForecastConfig) (idx k : Nat) : ℚ :=
  ((List.range k).map (fun j => 1 + revenue_growth cfg (idx + j))).prod

lemma growthProd_succ (cfg : ForecastConfig) (idx k : Nat) :
    growthProd cfg idx (k + 1) =
      (1 + revenue_growth cfg idx) * growthProd cfg (idx + 1) k := by
  unfold growthProd
  rw [List.range_succ_eq_map, List.map_cons, List.prod_cons, List.map_map]
  congr 1
  all_goals first
    | simp
    | (refine congrArg List.prod (List.map_congr_left fun j hj => ?_)
       simp only [Function.comp_apply]
       congr 2
       omega)

/-- Closed form of the loop's revenues: the entry for the (j+1)-th
remaining period is r × (growth factors) × multiplier^(j+1) — the
multiplier compounds once per period. -/
lemma revenueList_getElem (cfg : ForecastConfig) (m : ℚ) (n : Nat) :
    ∀ (idx j : Nat) (r : ℚ), j < n →
      (revenueList cfg m idx n r)[j]? =
        some (r * growthProd cfg idx (j + 1) * m ^ (j + 1)) := by
  induction n with
  | zero => intro idx j r hj; omega
  | succ n ih =>
    intro idx j r hj
    rw [revenueList]
    cases j with
    | zero =>
      simp only [List.getElem?_cons_zero, Option.some.injEq, growthProd, List.range_succ,
        List.range_zero, List.nil_append, List.map_cons, List.map_nil, List.prod_cons,
        List.prod_nil, Nat.add_zero, pow_one, mul_one]
      ring
    | succ j =>
      simp only [List.getElem?_cons_succ]
      rw [ih (idx + 1) j _ (by omega), Option.some.injEq]
      conv_rhs => rw [growthProd_succ]
      ring

/-- The Revenue column of build_forecast, in terms of the pure revenue
recursion (empty when the history is empty or the horizon non-positive,
matching the error returns). -/
lemma forecastRevenues_build (mapped : List LedgerRow) (cfg : ForecastConfig)
    (s : ScenarioSet) (base : HistRow)
    (hg : (build_historical_summary mapped).getLast? = some base) :
    forecastRevenues (build_forecast mapped cfg s) =
      revenueList cfg s.revenue_multiplier 1 cfg.years.toNat base.revenue := by
  have hrows := forecastRows_map_revenue cfg s (build_historical_summary mapped) base
    cfg.years.toNat 1 base.revenue (max base.ppe 0) 0 base.nwc
  unfold build_forecast
  dsimp only
  simp only [hg]
  split
  · rename_i hE
    rw [List.isEmpty_iff] at hE
    rw [← hrows, hE]
    simp [forecastRevenues]
  · simpa [forecastRevenues] using hrows

/-- C1 (amended): holding everything else fixed, a revenue multiplier of
1.1 compounds: the Revenue of forecast period i is exactly 1.1^i times the
Revenue computed with multiplier 1.0 (not 1.1 times — the loop multiplies
the carried revenue by the multiplier every period). -/
theorem C1_revenue_multiplier_compounds (mapped : List LedgerRow) (cfg : ForecastConfig)
    (s : ScenarioSet) (i : Nat) (rUp rBase : ℚ) (hi : 1 ≤ i)
    (h1 : (forecastRevenues (build_forecast mapped cfg
      { s with revenue_multiplier := 1.1 }))[i - 1]? = some rUp)
    (h0 : (forecastRevenues (build_forecast mapped cfg
      { s with revenue_multiplier := 1 }))[i - 1]? = some rBase) :
    rUp = 1.1 ^ i * rBase := by
  cases hg : (build_historical_summary mapped).getLast? with
  | none =>
    exfalso
    have hempty : forecastRevenues (build_forecast mapped cfg
        { s with revenue_multiplier := 1.1 }) = [] := by
      unfold build_forecast
      dsimp only
      simp only [hg]
      simp [forecastRevenues]
    rw [hempty] at h1
    simp at h1
  | some base =>
    rw [forecastRevenues_build mapped cfg _ base hg] at h1 h0
    have hlt : i - 1 < cfg.years.toNat := by
      by_contra hge
      rw [List.getElem?_eq_none (by rw [revenueList_length]; omega)] at h1
      exact Option.noConfusion h1
    rw [revenueList_getElem cfg _ cfg.years.toNat 1 (i - 1) base.revenue hlt,
      Option.some.injEq] at h1 h0
    have hii : i - 1 + 1 = i := by omega
    rw [hii] at h1 h0
    dsimp only at h1 h0
    subst h1
    subst h0
    ring

/-- C1 counterexample: with anchor Revenue 1000, 8% growth and horizon 2,
the multiplier-1.1 run gives [1188, 1411.344] against the base run's
[1080, 1166.4]: period 2 is 1.21 times the base, not 1.1 times. -/
theorem C1_counterexample :
    forecastRevenues (build_forecast sampleLedger { years := 2 }
      { revenue_multiplier := 1.1 }) = [1188, 1411.344] ∧
    forecastRevenues (build_forecast sampleLedger { years := 2 } {}) = [1080, 1166.4] ∧
    (1411.344 : ℚ) ≠ 1.1 * 1166.4 := by
  refine ⟨?_, ?_, by norm_num⟩ <;>
    norm_num +decide [build_forecast, build_historical_summary, histRowAt, sumFor,
      forecastRows, makeForecastRow, revenue_growth, cost_value, tail3Mean,
      forecastRevenues, sampleLedger, List.insertionSort, List.orderedInsert, List.dedup,
      List.filter, max_def]

/-- C1 witness: the amended theorem at horizon 1, period 1: 1188 is
1.1^1 times 1080. -/
theorem C1_revenue_multiplier_compounds_witness :
    (1 : Nat) ≤ 1 ∧ (1188 : ℚ) = 1.1 ^ 1 * 1080 :=
  ⟨le_refl 1,
    C1_revenue_multiplier_compounds sampleLedger { years := 1 } {} 1 1188 1080 (le_refl 1)
      (by norm_num +decide [build_forecast, build_historical_summary, histRowAt, sumFor,
        forecastRows, makeForecastRow, revenue_growth, cost_value, tail3Mean,
        forecastRevenues, sampleLedger, List.insertionSort, List.orderedInsert,
        List.dedup, List.filter, max_def])
      (by norm_num +decide [build_forecast, build_historical_summary, histRowAt, sumFor,
        forecastRows, makeForecastRow, revenue_growth, cost_value, tail3Mean,
        forecastRevenues, sampleLedger, List.insertionSort, List.orderedInsert,
        List.dedup, List.filter, max_def])⟩

/-! ### C9: row count, period order, first-order recurrence -/

/-- The forecast loop emits exactly one row per remaining period. -/
lemma forecastRows_length (cfg : ForecastConfig) (s : ScenarioSet) (hist : List HistRow)
    (base : HistRow) (n : Nat) :
    ∀ (idx : Nat) (r pE pN pn : ℚ),
      (forecastRows cfg s hist base idx n r pE pN pn).length = n := by
  induction n with
  | zero => intro idx r pE pN pn; simp [forecastRows]
  | succ n ih =>
    intro idx r pE pN pn
    rw [forecastRows]
    simp only [List.length_cons, ih]

/-- The loop's period column: anchor period plus the running 1-based
index, in emission order. -/
lemma forecastRows_map_period (cfg : ForecastConfig) (s : ScenarioSet)
    (hist : List HistRow) (base : HistRow) (n : Nat) :
    ∀ (idx : Nat) (r pE pN pn : ℚ),
      (forecastRows cfg s hist base idx n r pE pN pn).map (fun row => row.period) =
        (List.range n).map (fun j => base.period + ((idx + j : Nat) : Int)) := by
  induction n with
  | zero => intro idx r pE pN pn; simp [forecastRows]
  | succ n ih =>
    intro idx r pE pN pn
    rw [forecastRows, List.range_succ_eq_map]
    simp only [List.map_cons, List.map_map, List.cons.injEq]
    constructor
    · simp [makeForecastRow]
    · rw [ih]
      refine List.map_congr_left fun j hj => ?_
      simp only [Function.comp_apply]
      congr 1
      omega

/-- The first row's Delta NWC is its NWC minus the carried previous NWC. -/
lemma forecastRows_deltaNwc_head (cfg : ForecastConfig) (s : ScenarioSet)
    (hist : List HistRow) (base : HistRow) (n idx : Nat) (r pE pN pn : ℚ)
    (rj : ForecastRow)
    (hj : (forecastRows cfg s hist base idx n r pE pN pn)[0]? = some rj) :
    rj.delta_nwc = rj.nwc - pn := by
  cases n with
  | zero => simp [forecastRows] at hj
  | succ n =>
    rw [forecastRows] at hj
    simp only [List.getElem?_cons_zero, Option.some.injEq] at hj
    subst hj
    simp [makeForecastRow]

/-- Each later row's Delta NWC is its NWC minus the previous row's NWC:
the NWC recurrence is first-order. -/
lemma forecastRows_deltaNwc_step (cfg : ForecastConfig) (s : ScenarioSet)
    (hist : List HistRow) (base : HistRow) (n : Nat) :
    ∀ (idx : Nat) (r pE pN pn : ℚ) (j : Nat) (rj rk : ForecastRow),
      (forecastRows cfg s hist base idx n r pE pN pn)[j]? = some rj →
      (forecastRows cfg s hist base idx n r pE pN pn)[j + 1]? = some rk →
      rk.delta_nwc = rk.nwc - rj.nwc := by
  induction n with
  | zero => intro idx r pE pN pn j rj rk hj hk; simp [forecastRows] at hj
  | succ n ih =>
    intro idx r pE pN pn j rj rk hj hk
    rw [forecastRows] at hj hk
    cases j with
    | zero =>
      simp only [List.getElem?_cons_zero, Option.some.injEq] at hj
      simp only [List.getElem?_cons_succ] at hk
      subst hj
      exact forecastRows_deltaNwc_head cfg s hist base n (idx + 1) _ _ _ _ rk hk
    | succ j =>
      simp only [List.getElem?_cons_succ] at hj hk
      exact ih (idx + 1) _ _ _ _ j rj rk hj hk

/-- The loop has no lookahead: its first k rows do not depend on how many
further periods remain. -/
lemma forecastRows_take (cfg : ForecastConfig) (s : ScenarioSet) (hist : List HistRow)
    (base : HistRow) (k : Nat) :
    ∀ (n n2 idx : Nat) (r pE pN pn : ℚ), k ≤ n → k ≤ n2 →
      (forecastRows cfg s hist base idx n r pE pN pn).take k =
        (forecastRows cfg s hist base idx n2 r pE pN pn).take k := by
  induction k with
  | zero => intro n n2 idx r pE pN pn h1 h2; simp
  | succ k ih =>
    intro n n2 idx r pE pN pn h1 h2
    cases n with
    | zero => omega
    | succ n =>
      cases n2 with
      | zero => omega
      | succ n2 =>
        rw [forecastRows, forecastRows]
        simp only [List.take_succ_cons, List.cons.injEq, true_and]
        exact ih n n2 (idx + 1) _ _ _ _ (by omega) (by omega)

/-- The projection loop reads no field of the config other than the
method, rate, day and tax knobs: changing the horizon field alone changes
no emitted row. -/
lemma forecastRows_years_update (cfg : ForecastConfig) (y : Int) (s : ScenarioSet)
    (hist : List HistRow) (base : HistRow) (n : Nat) :
    ∀ (idx : Nat) (r pE pN pn : ℚ),
      forecastRows { cfg with years := y } s hist base idx n r pE pN pn =
        forecastRows cfg s hist base idx n r pE pN pn := by
  induction n with
  | zero => intro idx r pE pN pn; rw [forecastRows, forecastRows]
  | succ n ih =>
    intro idx r pE pN pn
    have hrow : makeForecastRow { cfg with years := y } s hist base idx r pE pN pn =
        makeForecastRow cfg s hist base idx r pE pN pn := by
      simp [makeForecastRow, revenue_growth, cost_value]
    rw [forecastRows, forecastRows, hrow, ih]

/-- The rows inside a successful build_forecast are exactly the loop's
output from the anchor row. -/
lemma build_forecast_ok_rows (mapped : List LedgerRow) (cfg : ForecastConfig)
    (s : ScenarioSet) (base : HistRow) (fr : ForecastResult)
    (hb : (build_historical_summary mapped).getLast? = some base)
    (hok : build_forecast mapped cfg s = .ok fr) :
    fr.forecast = forecastRows cfg s (build_historical_summary mapped) base 1
      cfg.years.toNat base.revenue (max base.ppe 0) 0 base.nwc := by
  unfold build_forecast at hok
  dsimp only at hok
  rw [hb] at hok
  dsimp only at hok
  split at hok
  · exact Except.noConfusion hok
  · rw [Except.ok.injEq] at hok
    subst hok
    rfl

/-- C9: a successful build_forecast with positive horizon N returns
exactly N rows; their periods are the anchor period plus 1..N in
ascending order; Delta NWC is a first-order recurrence (row 1 against the
anchor NWC, row i+1 against row i); and the first k rows are unchanged by
any change of the horizon beyond them (no lookahead). -/
theorem C9_forecast_shape (mapped : List LedgerRow) (cfg : ForecastConfig)
    (s : ScenarioSet) (base : HistRow) (fr : ForecastResult)
    (hb : (build_historical_summary mapped).getLast? = some base)
    (hy : 0 < cfg.years)
    (hok : build_forecast mapped cfg s = .ok fr) :
    ((fr.forecast.length : Int) = cfg.years) ∧
    (fr.forecast.map (fun r => r.period) =
      (List.range cfg.years.toNat).map (fun j => base.period + ((1 + j : Nat) : Int))) ∧
    fr.forecast.Pairwise (fun a b => a.period < b.period) ∧
    (∀ r0, fr.forecast[0]? = some r0 → r0.delta_nwc = r0.nwc - base.nwc) ∧
    (∀ (j : Nat) (rj rk : ForecastRow), fr.forecast[j]? = some rj →
      fr.forecast[j + 1]? = some rk → rk.delta_nwc = rk.nwc - rj.nwc) ∧
    (∀ (y : Int) (fr2 : ForecastResult),
      build_forecast mapped { cfg with years := y } s = .ok fr2 →
      ∀ k : Nat, (k : Int) ≤ cfg.years → (k : Int) ≤ y →
        fr.forecast.take k = fr2.forecast.take k) := by
  have hrows := build_forecast_ok_rows mapped cfg s base fr hb hok
  have hmap : fr.forecast.map (fun r => r.period) =
      (List.range cfg.years.toNat).map (fun j => base.period + ((1 + j : Nat) : Int)) := by
    rw [hrows]
    exact forecastRows_map_period cfg s _ base cfg.years.toNat 1 _ _ _ _
  refine ⟨?_, hmap, ?_, ?_, ?_, ?_⟩
  · rw [hrows, forecastRows_length]
    omega
  · have hpw : (fr.forecast.map (fun r => r.period)).Pairwise (fun a b => a < b) := by
      rw [hmap, List.pairwise_map]
      exact (List.pairwise_lt_range cfg.years.toNat).imp fun hab => by push_cast; omega
    rw [List.pairwise_map] at hpw
    exact hpw
  · intro r0 h0
    rw [hrows] at h0
    exact forecastRows_deltaNwc_head cfg s _ base cfg.years.toNat 1 _ _ _ _ r0 h0
  · intro j rj rk hj hk
    rw [hrows] at hj hk
    exact forecastRows_deltaNwc_step cfg s _ base cfg.years.toNat 1 _ _ _ _ j rj rk hj hk
  · intro y fr2 hok2 k hk1 hk2
    have hrows2 := build_forecast_ok_rows mapped { cfg with years := y } s base fr2 hb hok2
    have hrows2b : fr2.forecast = forecastRows cfg s (build_historical_summary mapped)
        base 1 y.toNat base.revenue (max base.ppe 0) 0 base.nwc := by
      rw [hrows2, forecastRows_years_update]
    rw [hrows, hrows2b]
    exact forecastRows_take cfg s _ base k cfg.years.toNat y.toNat 1 _ _ _ _
      (by omega) (by omega)

/-- A second zero-flow forecast row, for period 2025. -/
def rowZero2 : ForecastRow :=
  { rowZero with period := 2025 }

/-- The anchor summary row of the zero-revenue ledger. -/
def baseZero : HistRow :=
  { period := 2023, revenue := 0, cogs := 0, opex := 0, depreciation := 0,
    accounts_receivable := 0, inventory := 0, accounts_payable := 0, nwc := 0, ppe := 0 }

/-- C9 witness: the shape theorem applied to the zero-revenue ledger at
horizon 2, with the horizon-1 run agreeing on the first row. -/
theorem C9_forecast_shape_witness :
    (([rowZero, rowZero2] : List ForecastRow).length : Int) = (2 : Int) ∧
    ([rowZero, rowZero2] : List ForecastRow).map (fun r => r.period) =
      (List.range (2 : Int).toNat).map (fun j => (2023 : Int) + ((1 + j : Nat) : Int)) ∧
    ([rowZero, rowZero2] : List ForecastRow).take 1 = ([rowZero] : List ForecastRow).take 1 := by
  have hb : (build_historical_summary zeroLedger).getLast? = some baseZero := by
    norm_num +decide [build_historical_summary, histRowAt, sumFor, zeroLedger, baseZero,
      List.insertionSort, List.orderedInsert, List.dedup, List.filter, List.getLast?]
  have hok2 : build_forecast zeroLedger { years := 2 } {} =
      .ok { forecast := [rowZero, rowZero2] } := by
    norm_num +decide [build_forecast, build_historical_summary, histRowAt, sumFor,
      forecastRows, makeForecastRow, revenue_growth, cost_value, tail3Mean, zeroLedger,
      rowZero, rowZero2, List.insertionSort, List.orderedInsert, List.dedup, List.filter,
      max_def, List.getLast?]
  have hok1 : build_forecast zeroLedger { years := 1 } {} =
      .ok { forecast := [rowZero] } := by
    norm_num +decide [build_forecast, build_historical_summary, histRowAt, sumFor,
      forecastRows, makeForecastRow, revenue_growth, cost_value, tail3Mean, zeroLedger,
      rowZero, List.insertionSort, List.orderedInsert, List.dedup, List.filter,
      max_def, List.getLast?]
  have h := C9_forecast_shape zeroLedger { years := 2 } {} baseZero
    { forecast := [rowZero, rowZero2] } hb (by norm_num) hok2
  exact ⟨h.1, h.2.1,
    h.2.2.2.2.2 1 { forecast := [rowZero] } hok1 1 (by norm_num) (by norm_num)⟩

end DCF
